import Mathlib

/-!
Shallow embedding of the multi-tier conversational memory subsystem of the
tender-document backend (files `backend/app/memory/short_term.py`,
`backend/app/memory/long_term.py`, `backend/app/memory/memory_manager.py`,
`backend/app/chat_assistant/service.py`,
`backend/app/chat_assistant/query_reformulator.py`), together with proofs of
the behavioural claims about it.

Conventions of the embedding:
* Python lists become Lean `List`s; Python dicts that rely on insertion order
  become association lists.
* Machine-external collaborators (the tiktoken tokenizer, the LLM client)
  become function parameters; an LLM call that may raise becomes a value of
  `Except String String`.
* A Python function that may raise `ValueError` becomes a Lean function into
  `Except String _`.
* Python truthiness tests (`if limit:`, `if not conversation_summary:`) are
  embedded by explicit truthiness functions so that `0`, `None`, `""` and `[]`
  are falsy exactly as in Python.
* Python negative-index slicing `l[-k:]` is embedded by `pySliceLast`, which
  is the whole list when `k = 0` (as `l[-0:] = l[0:]` in Python) and the last
  `k` elements otherwise.
-/

namespace EnestMemory

/-- Message roles that the buffer can hold: `HumanMessage` ↦ `user`,
`AIMessage` ↦ `assistant` (`short_term.py` lines 61-64). -/
inductive Role where
  | user
  | assistant
deriving DecidableEq, Repr

/-- Role strings accepted by `add_message`: `"user"` and `"assistant"`;
anything else raises `ValueError` (`short_term.py` lines 61-66). -/
def roleOfString (r : String) : Option Role :=
  if r = "user" then some Role.user
  else if r = "assistant" then some Role.assistant
  else none

/-- Rendering of a buffered message's role back to the dict field `role`
used by `get_recent_messages` (`short_term.py` lines 88-95). -/
def Role.toRoleString : Role → String
  | Role.user => "user"
  | Role.assistant => "assistant"

/-- A rolling-buffer entry: role plus content (a `HumanMessage`/`AIMessage`
carrying only its content). -/
structure Msg where
  role : Role
  content : String
deriving DecidableEq, Repr

/-- Python truthiness of an optional integer argument (`if limit:`):
`None` and `0` are falsy. -/
def pyTruthyOptNat : Option Nat → Bool
  | none => false
  | some n => n != 0

/-- Python truthiness of an optional string (`if not conversation_summary:`):
`None` and `""` are falsy. -/
def pyTruthyOptStr : Option String → Bool
  | none => false
  | some s => s != ""

/-- Python slice `l[-k:]` for a nonnegative `k`: the whole list when `k = 0`,
otherwise the last `k` elements. -/
def pySliceLast (l : List α) (k : Nat) : List α :=
  if k = 0 then l else l.drop (l.length - k)

/-- The last `k` elements of a list (`l.drop (l.length - k)`), used to state
what a truncation keeps. -/
def takeLast (k : Nat) (l : List α) : List α :=
  l.drop (l.length - k)

/-- `ShortTermMemory` state: the configuration fields and the in-memory
message buffer `_messages` (`short_term.py` lines 35-51; the `llm` and
`tokenizer` attributes are external collaborators and are passed as
parameters to the operations that use them). -/
structure ShortTermMemory where
  max_tokens_before_summary : Nat
  messages_to_keep : Nat
  _messages : List Msg
deriving DecidableEq, Repr

namespace ShortTermMemory

/-- `ShortTermMemory.add_message` (`short_term.py` lines 53-70): append a
`HumanMessage`/`AIMessage` according to `role`, raising `ValueError` on any
other role; then, if the buffer length exceeds `messages_to_keep * 2`,
truncate to `self._messages[-self.messages_to_keep:]`. -/
def add_message (stm : ShortTermMemory) (role content : String) :
    Except String ShortTermMemory :=
  match roleOfString role with
  | none => Except.error ("Invalid role: " ++ role ++ ". Must be 'user' or 'assistant'")
  | some r =>
    let msgs := stm._messages ++ [⟨r, content⟩]
    let msgs :=
      if stm.messages_to_keep * 2 < msgs.length then
        pySliceLast msgs stm.messages_to_keep
      else msgs
    Except.ok { stm with _messages := msgs }

/-- `ShortTermMemory.get_recent_messages` (`short_term.py` lines 72-97):
slice the buffer to the last `limit` entries when `limit` is truthy, then
format each entry as a `(role, content)` record. -/
def get_recent_messages (stm : ShortTermMemory) (limit : Option Nat) :
    List (String × String) :=
  let messages :=
    if pyTruthyOptNat limit then pySliceLast stm._messages (limit.getD 0)
    else stm._messages
  messages.map (fun m => (m.role.toRoleString, m.content))

/-- `ShortTermMemory.get_buffer_string` (`short_term.py` lines 141-155):
newline-joined transcript with `Human:`/`AI:` prefixes. -/
def get_buffer_string (stm : ShortTermMemory) : String :=
  let messages := stm.get_recent_messages none
  let buffer_lines := messages.map (fun m =>
    (if m.1 = "user" then "Human:" else "AI:") ++ " " ++ m.2)
  String.intercalate "\n" buffer_lines

/-- `ShortTermMemory.get_conversation_summary` (`short_term.py` lines
99-139): empty string if fewer than 4 messages are buffered or the token
count of the buffer string is below `max_tokens_before_summary`; otherwise
the stripped LLM response, or empty string if the LLM call raises.
`count_tokens` (the tiktoken encoder) and `llm` (the summarization call on
the buffer string, `Except.error` modelling a raised exception) are the
external collaborators. -/
def get_conversation_summary (stm : ShortTermMemory)
    (count_tokens : String → Nat) (llm : String → Except String String) :
    String :=
  if stm._messages.length < 4 then ""
  else
    let conversation_text := stm.get_buffer_string
    let token_count := count_tokens conversation_text
    if token_count < stm.max_tokens_before_summary then ""
    else
      match llm conversation_text with
      | Except.ok response => response.trim
      | Except.error _ => ""

/-- `ShortTermMemory.clear` (`short_term.py` lines 169-171). -/
def clear (stm : ShortTermMemory) : ShortTermMemory :=
  { stm with _messages := [] }

/-- `ShortTermMemory.load_messages_batch` (`short_term.py` lines 184-201):
append each dict's message to `_messages`, raising `ValueError` on an
invalid role; there is no truncation step in this method. -/
def load_messages_batch (stm : ShortTermMemory)
    (messages : List (String × String)) : Except String ShortTermMemory :=
  messages.foldlM (fun s msg =>
    match roleOfString msg.1 with
    | some r => Except.ok { s with _messages := s._messages ++ [⟨r, msg.2⟩] }
    | none =>
        Except.error ("Invalid role: " ++ msg.1 ++ ". Must be 'user' or 'assistant'"))
    stm

end ShortTermMemory

/-- A persisted `ChatSession` row (`memory/models.py` via `long_term.py`):
session key, document-id scope, optional user, running message counter,
rolling summary, last-activity timestamp. -/
structure ChatSession where
  session_id : String
  pdf_ids : List Int
  user_id : Option String
  total_messages : Nat
  summary : Option String
  last_activity : Nat
deriving DecidableEq, Repr

/-- A persisted `ChatMessage` row: owning session, role, content and
creation timestamp (sources and token counts are not relevant to the
claims and are omitted from the row). -/
structure ChatMessageRow where
  session_id : String
  role : String
  content : String
  timestamp : Nat
deriving DecidableEq, Repr

/-- `ChatMessageCreate` payload (`memory/schemas.py`): the data
`LongTermMemory.add_message` persists. -/
structure ChatMessageCreate where
  session_id : String
  role : String
  content : String
deriving DecidableEq, Repr

/-- The relational store behind `LongTermMemory`: the sessions table and the
messages table, each as a list of rows in insertion order. -/
structure Db where
  sessions : List ChatSession
  messages : List ChatMessageRow
deriving DecidableEq, Repr

/-- Insert a message row into a timestamp-descending list, keeping it
descending (used to embed the SQL `ORDER BY timestamp DESC`). -/
def insertDesc (m : ChatMessageRow) : List ChatMessageRow → List ChatMessageRow
  | [] => [m]
  | x :: xs =>
    if x.timestamp ≤ m.timestamp then m :: x :: xs else x :: insertDesc m xs

/-- Sort message rows by timestamp descending (the SQL
`ORDER BY timestamp DESC` of `get_recent_messages`). -/
def sortByTimestampDesc (l : List ChatMessageRow) : List ChatMessageRow :=
  l.foldr insertDesc []

/-- Insert a message row into a timestamp-ascending list, keeping it
ascending (used to embed the SQL `ORDER BY timestamp` of `get_messages`). -/
def insertAsc (m : ChatMessageRow) : List ChatMessageRow → List ChatMessageRow
  | [] => [m]
  | x :: xs =>
    if m.timestamp ≤ x.timestamp then m :: x :: xs else x :: insertAsc m xs

/-- Sort message rows by timestamp ascending (the SQL `ORDER BY timestamp`
of `get_messages`). -/
def sortByTimestampAsc (l : List ChatMessageRow) : List ChatMessageRow :=
  l.foldr insertAsc []

namespace LongTermMemory

/-- The rows of the messages table belonging to one session (the filter
`ChatMessage.session_id == session_id` shared by the message queries). -/
def sessionRows (db : Db) (session_id : String) : List ChatMessageRow :=
  db.messages.filter (fun m => m.session_id == session_id)

/-- `LongTermMemory.get_session` (`long_term.py` lines 48-62): first
sessions-table row with the given `session_id`, or `None`. -/
def get_session (db : Db) (session_id : String) : Option ChatSession :=
  db.sessions.find? (fun s => s.session_id == session_id)

/-- `LongTermMemory.create_session` (`long_term.py` lines 27-46): insert a
new session row with `total_messages = 0` and no summary; returns the
created row and the new store. `now` stands for the row-creation clock. -/
def create_session (db : Db) (session_id : String) (pdf_ids : List Int)
    (user_id : Option String) (now : Nat) : ChatSession × Db :=
  let session : ChatSession :=
    { session_id := session_id, pdf_ids := pdf_ids, user_id := user_id,
      total_messages := 0, summary := none, last_activity := now }
  (session, { db with sessions := db.sessions ++ [session] })

/-- `LongTermMemory.get_or_create_session` (`long_term.py` lines 64-84):
return the existing session if present, otherwise create one from the given
`pdf_ids`/`user_id`. -/
def get_or_create_session (db : Db) (session_id : String)
    (pdf_ids : List Int) (user_id : Option String) (now : Nat) :
    ChatSession × Db :=
  match get_session db session_id with
  | some session => (session, db)
  | none => create_session db session_id pdf_ids user_id now

/-- `ChatSessionUpdate` payload (`memory/schemas.py`): the partial-update
data of `update_session`; `session_metadata` is kept as an opaque string. -/
structure SessionUpdate where
  summary : Option String
  total_messages : Option Nat
  session_metadata : Option String
deriving DecidableEq, Repr

/-- The field updates `update_session` applies to a session row
(`long_term.py` lines 103-111): each non-`None` update field overwrites the
row's field, and `last_activity` is always refreshed. -/
def applyUpdate (s : ChatSession) (u : SessionUpdate) (now : Nat) : ChatSession :=
  let s := match u.summary with
    | some v => { s with summary := some v }
    | none => s
  let s := match u.total_messages with
    | some v => { s with total_messages := v }
    | none => s
  { s with last_activity := now }

/-- `LongTermMemory.update_session` (`long_term.py` lines 86-115): raise
`ValueError` if the session is absent, otherwise apply the partial update
in place in the sessions table and return the updated row. -/
def update_session (db : Db) (session_id : String) (u : SessionUpdate)
    (now : Nat) : Except String (ChatSession × Db) :=
  match get_session db session_id with
  | none => Except.error ("Session " ++ session_id ++ " not found")
  | some session =>
    let updated := applyUpdate session u now
    Except.ok (updated,
      { db with sessions := db.sessions.map (fun s =>
          if s.session_id == session_id then applyUpdate s u now else s) })

/-- `LongTermMemory.add_message` (`long_term.py` lines 117-144): in one
commit, insert the message row and increment `total_messages` (and bump
`last_activity`) on the session object passed by reference — `session_sid`
is that session's id, and the counter update lands on its row. Returns the
created row and the post-commit store. -/
def add_message (db : Db) (message_data : ChatMessageCreate)
    (session_sid : String) (now : Nat) : ChatMessageRow × Db :=
  let message : ChatMessageRow :=
    { session_id := message_data.session_id, role := message_data.role,
      content := message_data.content, timestamp := now }
  (message,
    { sessions := db.sessions.map (fun s =>
        if s.session_id == session_sid then
          { s with total_messages := s.total_messages + 1, last_activity := now }
        else s),
      messages := db.messages ++ [message] })

/-- `LongTermMemory.get_messages` (`long_term.py` lines 146-171): the
session's rows ordered by ascending timestamp, with `offset` applied only
when truthy (`if offset:`) and `limit` applied only when truthy
(`if limit:`). -/
def get_messages (db : Db) (session_id : String) (limit : Option Nat)
    (offset : Nat) : List ChatMessageRow :=
  let q := sortByTimestampAsc (sessionRows db session_id)
  let q := if offset != 0 then q.drop offset else q
  let q := if pyTruthyOptNat limit then q.take (limit.getD 0) else q
  q

/-- `LongTermMemory.get_recent_messages` (`long_term.py` lines 173-192):
fetch the session's rows ordered by descending timestamp, limit to `limit`,
then reverse into chronological order. -/
def get_recent_messages (db : Db) (session_id : String) (limit : Nat) :
    List ChatMessageRow :=
  let messages := (sortByTimestampDesc (sessionRows db session_id)).take limit
  messages.reverse

/-- `LongTermMemory.get_message_count` (`long_term.py` lines 194-208):
number of message rows of the session. -/
def get_message_count (db : Db) (session_id : String) : Nat :=
  (sessionRows db session_id).length

end LongTermMemory

namespace UnifiedMemoryManager

/-- `UnifiedMemoryManager._check_and_update_summary`
(`memory_manager.py` lines 127-141): read `self.session.total_messages`;
when it reaches `memory_summary_trigger` and is a multiple of it, invoke
`short_term.get_conversation_summary()` — its result is the parameter
`produced_summary`, the external LLM path — and, if that summary is truthy,
persist it through `update_session` and adopt the updated session. The
returned `Bool` records whether summarization was invoked; the `Except`
propagates `update_session`'s `ValueError` exactly where Python would. -/
def check_and_update_summary (session : ChatSession) (db : Db)
    (memory_summary_trigger : Nat) (produced_summary : String) (now : Nat) :
    Except String (Bool × ChatSession × Db) :=
  let total_messages := session.total_messages
  if memory_summary_trigger ≤ total_messages ∧
      total_messages % memory_summary_trigger = 0 then
    if produced_summary != "" then
      match LongTermMemory.update_session db session.session_id
          ⟨some produced_summary, none, none⟩ now with
      | Except.ok (updated_session, db') =>
          Except.ok (true, updated_session, db')
      | Except.error e => Except.error e
    else Except.ok (true, session, db)
  else Except.ok (false, session, db)

end UnifiedMemoryManager

/-- `ChatMessageResponse` as consumed by the reformulator's prompt builder:
role and content of a recent message (`memory/schemas.py`). -/
structure ChatMessageResponse where
  role : String
  content : String
deriving DecidableEq, Repr

namespace QueryReformulator

/-- `QueryReformulator._build_system_prompt`
(`query_reformulator.py` lines 81-104). -/
def build_system_prompt : String :=
  "You are a query reformulation assistant for a tender document analysis system.\n\n"
  ++ "Your task is to reformulate user queries by incorporating relevant context from the conversation history.\n\n"
  ++ "Guidelines:\n"
  ++ "1. **Preserve all specific references**: If the query mentions page numbers, sections, clauses, items, or other specific references, keep them EXACTLY as stated\n"
  ++ "   - Example: \"What page is that on?\" → \"What page contains the contractor qualification requirements?\"\n\n"
  ++ "2. **Resolve pronouns and relative references**: Replace \"it\", \"that\", \"this\", \"those\", \"these\" with the actual subject from conversation history\n"
  ++ "   - Example: \"Tell me more about it\" → \"Tell me more about the safety compliance requirements\"\n\n"
  ++ "3. **Add context for vague follow-ups**: Enhance queries that depend on previous discussion\n"
  ++ "   - Example: \"Is there a requirement for that?\" → \"Is there a requirement for ISO 9001 certification mentioned in section 2.3?\"\n\n"
  ++ "4. **Keep standalone queries as-is**: If the query is already complete and self-contained, return it unchanged\n"
  ++ "   - Example: \"What are the technical specifications in section 3.2?\" → (keep as-is)\n\n"
  ++ "5. **Don't lose information**: Never remove or simplify specific details, numbers, or technical terms from the original query\n\n"
  ++ "6. Keep the reformulated query concise (1-3 sentences max)\n\n"
  ++ "Output ONLY the reformulated query, no explanations or metadata."

/-- `QueryReformulator._build_user_prompt`
(`query_reformulator.py` lines 106-131): optional summary block, then the
last five recent messages, then the query, joined by newlines. -/
def build_user_prompt (original_query : String)
    (recent_messages : List ChatMessageResponse)
    (conversation_summary : Option String) : String :=
  let parts : List String := []
  let parts := parts ++
    (if pyTruthyOptStr conversation_summary then
      ["Conversation Summary:\n" ++ conversation_summary.getD "" ++ "\n"]
    else [])
  let parts := parts ++
    (if recent_messages ≠ [] then
      ["Recent Conversation:"]
      ++ (pySliceLast recent_messages 5).map
            (fun msg => msg.role ++ ": " ++ msg.content)
      ++ [""]
    else [])
  let parts := parts ++ ["User's New Query:\n" ++ original_query ++ "\n"]
  let parts := parts ++ ["Reformulated Query:"]
  String.intercalate "\n" parts

/-- `QueryReformulator.reformulate_query`
(`query_reformulator.py` lines 34-79): return the query unchanged when
there are no recent messages and no (truthy) summary; otherwise invoke the
LLM on the built system/user prompts — `llm` models `self.llm.invoke`, with
`Except.error` a raised exception — and return the stripped output, falling
back to the original query when the call raises or the stripped output is
empty or shorter than 10 characters. -/
def reformulate_query (llm : String → String → Except String String)
    (original_query : String) (recent_messages : List ChatMessageResponse)
    (conversation_summary : Option String) : String :=
  if recent_messages = [] ∧ pyTruthyOptStr conversation_summary = false then
    original_query
  else
    let system_prompt := build_system_prompt
    let user_prompt :=
      build_user_prompt original_query recent_messages conversation_summary
    match llm system_prompt user_prompt with
    | Except.ok response =>
      let reformulated := response.trim
      if reformulated = "" ∨ reformulated.length < 10 then original_query
      else reformulated
    | Except.error _ => original_query

end QueryReformulator

/-- Insert an integer into an ascending list, keeping it ascending
(auxiliary for Python's `sorted`). -/
def insertIntAsc (n : Int) : List Int → List Int
  | [] => [n]
  | x :: xs => if n ≤ x then n :: x :: xs else x :: insertIntAsc n xs

/-- Python `sorted` on a list of integers (ascending). -/
def pySorted (l : List Int) : List Int :=
  l.foldr insertIntAsc []

/-- Python `repr` of a tuple of integers, as interpolated by
`f"{session_id}:{pdf_ids_key}"`: `()` when empty, `(1,)` for a singleton,
`(1, 2)` otherwise. -/
def pyTupleRepr (l : List Int) : String :=
  match l with
  | [] => "()"
  | [x] => "(" ++ toString x ++ ",)"
  | _ => "(" ++ String.intercalate ", " (l.map toString) ++ ")"

/-- A Python `dict` keeping insertion order, with `Nat` values standing for
distinct `UnifiedMemoryManager` objects. -/
abbrev ODict := List (String × Nat)

/-- Dict membership / subscript read: first (unique) entry with the key. -/
def odictLookup (d : ODict) (k : String) : Option Nat :=
  (d.find? (fun p => p.1 == k)).map (fun p => p.2)

/-- Dict subscript assignment: overwrite in place when the key exists
(keeping its position, as Python dicts do), otherwise append at the end. -/
def odictInsert (d : ODict) (k : String) (v : Nat) : ODict :=
  if d.any (fun p => p.1 == k) then
    d.map (fun p => if p.1 == k then (k, v) else p)
  else d ++ [(k, v)]

/-- `next(iter(d))`: the first (oldest-inserted) key of the dict. -/
def odictFirstKey : ODict → Option String
  | [] => none
  | p :: _ => some p.1

/-- `del d[k]`: remove the (unique) entry with key `k`. -/
def odictDelete (d : ODict) (k : String) : ODict :=
  d.filter (fun p => p.1 != k)

/-- The cache-relevant state of `ChatAssistantService`
(`chat_assistant/service.py` lines 40-43): the memory-manager cache, its
size bound, and a counter allocating ids for freshly constructed
`UnifiedMemoryManager` objects (two constructions never yield the same
object, hence distinct ids). -/
structure ChatAssistantService where
  _memory_manager_cache : ODict
  _max_cache_size : Nat
  next_manager_id : Nat
deriving DecidableEq, Repr

/-- `ChatAssistantService._get_or_create_memory_manager`
(`chat_assistant/service.py` lines 45-82): build
`cache_key = f"{session_id}:{tuple(sorted(pdf_ids))}"` and return the cache
entry under `cache_key` when present; otherwise construct a fresh manager,
store it — under `session_id`, as the source does on line 75 — and, when
the cache exceeds `_max_cache_size`, delete the first-inserted key. The
`user_id` argument only feeds the constructed manager and is dropped here. -/
def get_or_create_memory_manager (svc : ChatAssistantService)
    (session_id : String) (pdf_ids : List Int) :
    Nat × ChatAssistantService :=
  let pdf_ids_key := pySorted pdf_ids
  let cache_key := session_id ++ ":" ++ pyTupleRepr pdf_ids_key
  match odictLookup svc._memory_manager_cache cache_key with
  | some m => (m, svc)
  | none =>
    let memory_manager := svc.next_manager_id
    let cache := odictInsert svc._memory_manager_cache session_id memory_manager
    let cache :=
      if svc._max_cache_size < cache.length then
        match odictFirstKey cache with
        | some first_key => odictDelete cache first_key
        | none => cache
      else cache
    (memory_manager,
      { svc with _memory_manager_cache := cache,
                 next_manager_id := svc.next_manager_id + 1 })

/-- An empty buffer with the given configuration (the state of a freshly
constructed `ShortTermMemory`, `short_term.py` line 51). -/
def freshSTM (maxTok keep : Nat) : ShortTermMemory :=
  ⟨maxTok, keep, []⟩

/-- One successful `add_message` call with a rendered (hence valid) role;
the error branch is unreachable for rendered roles. -/
def stmStep (s : ShortTermMemory) (m : Msg) : ShortTermMemory :=
  match s.add_message m.role.toRoleString m.content with
  | Except.ok s' => s'
  | Except.error _ => s

/-- Run a sequence of successful `add_message` calls starting from an empty
buffer with `messages_to_keep = k`. -/
def runAdds (maxTok k : Nat) (adds : List Msg) : ShortTermMemory :=
  adds.foldl stmStep (freshSTM maxTok k)

/-! ### Helper lemmas -/

/-- Rendering a `Role` and parsing it back is the identity, so `add_message`
never hits its `ValueError` branch on a rendered role. -/
theorem roleOfString_toRoleString (r : Role) :
    roleOfString r.toRoleString = some r := by
  cases r <;> rfl

/-- `T ≤ n ∧ n % T = 0` says exactly that `n` is a positive multiple of `T`
(for a positive trigger `T`). -/
theorem trigger_iff_positive_multiple (T n : Nat) (hT : 1 ≤ T) :
    (T ≤ n ∧ n % T = 0) ↔ ∃ m, 1 ≤ m ∧ n = m * T := by
  constructor
  · rintro ⟨hle, hmod⟩
    refine ⟨n / T, (Nat.one_le_div_iff hT).2 hle, ?_⟩
    exact (Nat.div_mul_cancel (Nat.dvd_of_mod_eq_zero hmod)).symm
  · rintro ⟨m, hm, rfl⟩
    exact ⟨Nat.le_mul_of_pos_left T hm, Nat.mul_mod_left m T⟩

/-- `add_message` on a rendered role always succeeds, appending the message
and truncating exactly when the new length exceeds `messages_to_keep * 2`. -/
theorem add_message_render_eq (stm : ShortTermMemory) (m : Msg) :
    stm.add_message m.role.toRoleString m.content =
      Except.ok { stm with _messages :=
        (if stm.messages_to_keep * 2 < (stm._messages ++ [m]).length then
          pySliceLast (stm._messages ++ [m]) stm.messages_to_keep
        else stm._messages ++ [m]) } := by
  unfold ShortTermMemory.add_message
  rw [roleOfString_toRoleString]

/-- `stmStep` in closed form. -/
theorem stmStep_eq (s : ShortTermMemory) (m : Msg) :
    stmStep s m =
      { s with _messages :=
        (if s.messages_to_keep * 2 < (s._messages ++ [m]).length then
          pySliceLast (s._messages ++ [m]) s.messages_to_keep
        else s._messages ++ [m]) } := by
  unfold stmStep
  rw [add_message_render_eq]

/-- `runAdds` over one more message is one `stmStep`. -/
theorem runAdds_concat (maxTok k : Nat) (adds : List Msg) (m : Msg) :
    runAdds maxTok k (adds ++ [m]) = stmStep (runAdds maxTok k adds) m := by
  unfold runAdds
  rw [List.foldl_append]
  rfl

/-- A suffix stays a suffix after appending the same tail on both sides. -/
theorem suffix_append_right {α : Type} {l₁ l₂ l₃ : List α}
    (h : l₁ <:+ l₂) : l₁ ++ l₃ <:+ l₂ ++ l₃ := by
  obtain ⟨t, rfl⟩ := h
  exact ⟨t, by rw [List.append_assoc]⟩

/-- `takeLast k` sees only the last `k` elements, so it is unchanged by
passing from a suffix of length ≥ k to the full list. -/
theorem takeLast_of_suffix {α : Type} {l₁ l₂ : List α} (k : Nat)
    (h : l₁ <:+ l₂) (hk : k ≤ l₁.length) :
    takeLast k l₁ = takeLast k l₂ := by
  obtain ⟨t, rfl⟩ := h
  unfold takeLast
  have hlen : (t ++ l₁).length - k = t.length + (l₁.length - k) := by
    rw [List.length_append]
    omega
  rw [hlen, List.drop_append]

/-- Invariant of a run of successful `add_message` calls from an empty
buffer: the configuration is untouched, the buffer length never exceeds
`2 × keep_size`, and the buffer is always a suffix of the messages added so
far (in order). -/
theorem runAdds_invariant (maxTok k : Nat) (hk : 1 ≤ k) (adds : List Msg) :
    (runAdds maxTok k adds).max_tokens_before_summary = maxTok ∧
    (runAdds maxTok k adds).messages_to_keep = k ∧
    (runAdds maxTok k adds)._messages.length ≤ 2 * k ∧
    (runAdds maxTok k adds)._messages <:+ adds := by
  induction adds using List.reverseRecOn with
  | nil =>
    exact ⟨rfl, rfl, by simp [runAdds, freshSTM], by simp [runAdds, freshSTM]⟩
  | append_singleton adds m ih =>
    obtain ⟨hmax, hkeep, hlen, hsuf⟩ := ih
    rw [runAdds_concat, stmStep_eq]
    refine ⟨hmax, hkeep, ?_, ?_⟩
    · by_cases hc : (runAdds maxTok k adds).messages_to_keep * 2 <
          ((runAdds maxTok k adds)._messages ++ [m]).length
      · rw [if_pos hc]
        unfold pySliceLast
        rw [if_neg (by rw [hkeep]; omega)]
        rw [List.length_drop, List.length_append]
        rw [hkeep] at hc ⊢
        rw [List.length_append] at hc
        omega
      · rw [if_neg hc]
        rw [hkeep, List.length_append] at hc
        rw [List.length_append]
        omega
    · have hsuf' : (runAdds maxTok k adds)._messages ++ [m] <:+ adds ++ [m] :=
        suffix_append_right hsuf
      by_cases hc : (runAdds maxTok k adds).messages_to_keep * 2 <
          ((runAdds maxTok k adds)._messages ++ [m]).length
      · rw [if_pos hc]
        unfold pySliceLast
        rw [if_neg (by rw [hkeep]; omega)]
        exact (List.drop_suffix _ _).trans hsuf'
      · rw [if_neg hc]
        exact hsuf'

/-! ### C3 — buffer cap for `add_message` sequences -/

/-- C3: for every sequence of successful `ShortTermMemory.add_message`
calls with `messages_to_keep = k ≥ 1` from an empty buffer, after each call
the buffer length is at most `2k` (and the buffer is a suffix of the
messages added, in order); and any further call that triggers truncation
leaves the buffer with exactly `k` entries equal to the last `k` messages
added, in order. -/
theorem add_message_buffer_cap_invariant (maxTok k : Nat) (hk : 1 ≤ k)
    (adds : List Msg) :
    (runAdds maxTok k adds)._messages.length ≤ 2 * k ∧
    (runAdds maxTok k adds)._messages <:+ adds ∧
    (∀ m, 2 * k < (runAdds maxTok k adds)._messages.length + 1 →
      (runAdds maxTok k (adds ++ [m]))._messages.length = k ∧
      (runAdds maxTok k (adds ++ [m]))._messages = takeLast k (adds ++ [m])) := by
  obtain ⟨hmax, hkeep, hlen, hsuf⟩ := runAdds_invariant maxTok k hk adds
  refine ⟨hlen, hsuf, ?_⟩
  intro m htrig
  have hpre : (runAdds maxTok k adds)._messages.length = 2 * k := by omega
  rw [runAdds_concat, stmStep_eq]
  have hc : (runAdds maxTok k adds).messages_to_keep * 2 <
      ((runAdds maxTok k adds)._messages ++ [m]).length := by
    rw [hkeep, List.length_append, hpre, List.length_singleton]
    omega
  rw [if_pos hc]
  have hslice : pySliceLast ((runAdds maxTok k adds)._messages ++ [m])
      (runAdds maxTok k adds).messages_to_keep =
      takeLast k ((runAdds maxTok k adds)._messages ++ [m]) := by
    rw [hkeep]
    unfold pySliceLast takeLast
    rw [if_neg (by omega)]
  constructor
  · rw [hslice]
    unfold takeLast
    rw [List.length_drop, List.length_append, hpre]
    omega
  · rw [hslice]
    exact takeLast_of_suffix k (suffix_append_right hsuf)
      (by rw [List.length_append, hpre]; omega)

/-- Witness for C3 at a concrete input: `k = 1`, two messages added (buffer
at the cap `2k = 2`), then a third, truncation-triggering call leaves
exactly the last message. -/
theorem add_message_buffer_cap_witness :
    (runAdds 5 1 [⟨Role.user, "m1"⟩, ⟨Role.assistant, "m2"⟩])._messages.length ≤
      2 * 1 ∧
    (runAdds 5 1 ([⟨Role.user, "m1"⟩, ⟨Role.assistant, "m2"⟩] ++
        [⟨Role.user, "m3"⟩]))._messages =
      takeLast 1 ([⟨Role.user, "m1"⟩, ⟨Role.assistant, "m2"⟩] ++
        [⟨Role.user, "m3"⟩]) := by
  refine ⟨(add_message_buffer_cap_invariant 5 1 (by decide)
    [⟨Role.user, "m1"⟩, ⟨Role.assistant, "m2"⟩]).1, ?_⟩
  exact ((add_message_buffer_cap_invariant 5 1 (by decide)
    [⟨Role.user, "m1"⟩, ⟨Role.assistant, "m2"⟩]).2.2
    ⟨Role.user, "m3"⟩ (by decide)).2

/-! ### C9 — idempotent get-or-create -/

/-- C9: `get_or_create_session` on an absent session creates it with the
message counter zeroed (and the given `pdf_ids`); a second call with the
same id — even with different `pdf_ids`/`user_id` — returns that existing
session unchanged and leaves the store unchanged. (The final conjunct is
the general existing-session case.) -/
theorem get_or_create_session_idempotent (db : Db) (sid : String)
    (p1 p2 : List Int) (u1 u2 : Option String) (now1 now2 : Nat)
    (habs : LongTermMemory.get_session db sid = none) :
    (LongTermMemory.get_or_create_session db sid p1 u1 now1).1 =
      ⟨sid, p1, u1, 0, none, now1⟩ ∧
    LongTermMemory.get_or_create_session
        (LongTermMemory.get_or_create_session db sid p1 u1 now1).2
        sid p2 u2 now2 =
      ((LongTermMemory.get_or_create_session db sid p1 u1 now1).1,
       (LongTermMemory.get_or_create_session db sid p1 u1 now1).2) ∧
    (∀ (db₀ : Db) (s : ChatSession),
      LongTermMemory.get_session db₀ sid = some s →
      LongTermMemory.get_or_create_session db₀ sid p2 u2 now2 = (s, db₀)) := by
  have hexist : ∀ (db₀ : Db) (s : ChatSession),
      LongTermMemory.get_session db₀ sid = some s →
      LongTermMemory.get_or_create_session db₀ sid p2 u2 now2 = (s, db₀) := by
    intro db₀ s hs
    unfold LongTermMemory.get_or_create_session
    rw [hs]
  have h1 : LongTermMemory.get_or_create_session db sid p1 u1 now1 =
      (⟨sid, p1, u1, 0, none, now1⟩,
       { db with sessions := db.sessions ++ [⟨sid, p1, u1, 0, none, now1⟩] }) := by
    unfold LongTermMemory.get_or_create_session
    rw [habs]
    rfl
  have h2 : LongTermMemory.get_session
      { db with sessions := db.sessions ++ [⟨sid, p1, u1, 0, none, now1⟩] } sid =
      some ⟨sid, p1, u1, 0, none, now1⟩ := by
    unfold LongTermMemory.get_session at habs ⊢
    rw [List.find?_append, habs]
    simp
  refine ⟨by rw [h1], ?_, hexist⟩
  rw [h1]
  exact hexist _ _ h2

/-- Witness for C9 at a concrete input: an empty store; the session is
created with counter 0 and `pdf_ids = [2, 1]`, and a second call with
`pdf_ids = [3]` returns it unchanged. -/
theorem get_or_create_session_idempotent_witness :
    (LongTermMemory.get_or_create_session ⟨[], []⟩ "s1" [2, 1] none 0).1 =
      ⟨"s1", [2, 1], none, 0, none, 0⟩ ∧
    LongTermMemory.get_or_create_session
        (LongTermMemory.get_or_create_session ⟨[], []⟩ "s1" [2, 1] none 0).2
        "s1" [3] (some "u") 9 =
      ((LongTermMemory.get_or_create_session ⟨[], []⟩ "s1" [2, 1] none 0).1,
       (LongTermMemory.get_or_create_session ⟨[], []⟩ "s1" [2, 1] none 0).2) ∧
    (∀ (db₀ : Db) (s : ChatSession),
      LongTermMemory.get_session db₀ "s1" = some s →
      LongTermMemory.get_or_create_session db₀ "s1" [3] (some "u") 9 =
        (s, db₀)) := by
  exact get_or_create_session_idempotent ⟨[], []⟩ "s1" [2, 1] [3] none
    (some "u") 0 9 (by decide)

/-! ### C10 — `limit = 0` means "no limit" -/

/-- C10: because both retrieval functions test the limit for truthiness
(`if limit:`), `ShortTermMemory.get_recent_messages` with `limit = 0`
returns all buffered messages, identical to passing no limit, and
`LongTermMemory.get_messages` treats `limit = 0` as "no limit" and returns
the session's entire chronologically ordered message history. -/
theorem limit_zero_means_no_limit (stm : ShortTermMemory) (db : Db)
    (sid : String) (offset : Nat) :
    stm.get_recent_messages (some 0) = stm.get_recent_messages none ∧
    LongTermMemory.get_messages db sid (some 0) offset =
      LongTermMemory.get_messages db sid none offset ∧
    LongTermMemory.get_messages db sid (some 0) 0 =
      sortByTimestampAsc (LongTermMemory.sessionRows db sid) := by
  refine ⟨?_, ?_, ?_⟩ <;>
    simp [ShortTermMemory.get_recent_messages, LongTermMemory.get_messages,
      pyTruthyOptNat]

/-! ### C6 — summarization trigger -/

/-- C6: with a positive trigger `T`, `_check_and_update_summary` invokes
summarization exactly when the session's `total_messages` is a positive
multiple of `T`, and when the produced summary is non-empty it is persisted
into the session's summary field, replacing any previous summary (otherwise
the summary field is unchanged). -/
theorem summary_trigger_exact (session : ChatSession) (db : Db)
    (T : Nat) (produced : String) (now : Nat) (hT : 1 ≤ T)
    (hs : LongTermMemory.get_session db session.session_id = some session) :
    ∃ fired s' db',
      UnifiedMemoryManager.check_and_update_summary session db T produced now =
        Except.ok (fired, s', db') ∧
      (fired = true ↔ ∃ m, 1 ≤ m ∧ session.total_messages = m * T) ∧
      s'.summary =
        (if fired = true ∧ produced ≠ "" then some produced
         else session.summary) := by
  unfold UnifiedMemoryManager.check_and_update_summary
  by_cases hc : T ≤ session.total_messages ∧ session.total_messages % T = 0
  · rw [if_pos hc]
    by_cases hp : produced = ""
    · refine ⟨true, session, db, ?_, ?_, ?_⟩
      · simp [hp]
      · simpa using (trigger_iff_positive_multiple T session.total_messages hT).1 hc
      · simp [hp]
    · have hbne : (produced != "") = true := by simpa using hp
      rw [hbne]
      unfold LongTermMemory.update_session
      rw [hs]
      refine ⟨true, _, _, rfl, ?_, ?_⟩
      · simpa using (trigger_iff_positive_multiple T session.total_messages hT).1 hc
      · simp [LongTermMemory.applyUpdate, hp]
  · rw [if_neg hc]
    refine ⟨false, session, db, rfl, ?_, by simp⟩
    simp only [Bool.false_eq_true, false_iff]
    intro hm
    exact hc ((trigger_iff_positive_multiple T session.total_messages hT).2 hm)

/-- Witness for C6 at a concrete input: trigger 3, counter 6 (a positive
multiple), non-empty produced summary, a store holding exactly that
session; summarization fires and the summary is replaced. -/
theorem summary_trigger_exact_witness :
    ∃ fired s' db',
      UnifiedMemoryManager.check_and_update_summary
          ⟨"s1", [1], none, 6, some "old", 0⟩
          ⟨[⟨"s1", [1], none, 6, some "old", 0⟩], []⟩ 3 "fresh summary" 7 =
        Except.ok (fired, s', db') ∧
      (fired = true ↔ ∃ m, 1 ≤ m ∧ (6 : Nat) = m * 3) ∧
      s'.summary =
        (if fired = true ∧ "fresh summary" ≠ "" then some "fresh summary"
         else some "old") := by
  exact summary_trigger_exact ⟨"s1", [1], none, 6, some "old", 0⟩
    ⟨[⟨"s1", [1], none, 6, some "old", 0⟩], []⟩ 3 "fresh summary" 7
    (by decide) (by decide)

/-! ### C7 — summarization guards and failure fallback -/

/-- C7: `get_conversation_summary` returns the empty string whenever fewer
than 4 messages are buffered or the token count of the buffer string is
below `max_tokens_before_summary`; otherwise it returns the trimmed LLM
output, and the empty string when the LLM call raises. (It is a total Lean
function, so it never raises to the caller.) -/
theorem get_conversation_summary_guards_and_fallback (stm : ShortTermMemory)
    (count_tokens : String → Nat) (llm : String → Except String String) :
    (stm._messages.length < 4 ∨
        count_tokens stm.get_buffer_string < stm.max_tokens_before_summary →
      stm.get_conversation_summary count_tokens llm = "") ∧
    (4 ≤ stm._messages.length →
      stm.max_tokens_before_summary ≤ count_tokens stm.get_buffer_string →
      stm.get_conversation_summary count_tokens llm =
        (match llm stm.get_buffer_string with
         | Except.ok response => response.trim
         | Except.error _ => "")) := by
  unfold ShortTermMemory.get_conversation_summary
  constructor
  · intro h
    by_cases h4 : stm._messages.length < 4
    · rw [if_pos h4]
    · rw [if_neg h4]
      have htok : count_tokens stm.get_buffer_string <
          stm.max_tokens_before_summary := by
        rcases h with h | h
        · exact absurd h h4
        · exact h
      exact if_pos htok
  · intro h4 htok
    rw [if_neg (by omega), if_neg (by omega)]

/-- Witness for C7 at a concrete input: four buffered messages, a
length-based token count above the threshold, and an LLM returning padded
text; the result is the trimmed output. -/
theorem get_conversation_summary_guards_witness :
    ShortTermMemory.get_conversation_summary
        ⟨1, 10, [⟨Role.user, "a"⟩, ⟨Role.assistant, "b"⟩,
                 ⟨Role.user, "c"⟩, ⟨Role.assistant, "d"⟩]⟩
        (fun s => s.length) (fun _ => Except.ok "  A tidy summary.  ") =
      ("  A tidy summary.  ").trim := by
  exact (get_conversation_summary_guards_and_fallback
      ⟨1, 10, [⟨Role.user, "a"⟩, ⟨Role.assistant, "b"⟩,
               ⟨Role.user, "c"⟩, ⟨Role.assistant, "d"⟩]⟩
      (fun s => s.length) (fun _ => Except.ok "  A tidy summary.  ")).2
    (by decide) (by decide)

/-! ### C8 — reformulation fallback -/

/-- C8: `reformulate_query` returns the original query unchanged when there
are no recent messages and no (truthy) conversation summary; and whenever
the LLM call raises, or its trimmed output is empty or shorter than 10
characters, it returns the original query. (It is a total Lean function, so
reformulation never raises to the caller.) -/
theorem reformulate_query_fallback
    (llm : String → String → Except String String) (q : String)
    (recent : List ChatMessageResponse) (summary : Option String) :
    (recent = [] ∧ pyTruthyOptStr summary = false →
      QueryReformulator.reformulate_query llm q recent summary = q) ∧
    (∀ e, llm QueryReformulator.build_system_prompt
        (QueryReformulator.build_user_prompt q recent summary) =
          Except.error e →
      QueryReformulator.reformulate_query llm q recent summary = q) ∧
    (∀ r, llm QueryReformulator.build_system_prompt
        (QueryReformulator.build_user_prompt q recent summary) =
          Except.ok r →
      r.trim = "" ∨ r.trim.length < 10 →
      QueryReformulator.reformulate_query llm q recent summary = q) := by
  unfold QueryReformulator.reformulate_query
  by_cases h0 : recent = [] ∧ pyTruthyOptStr summary = false
  · rw [if_pos h0]
    exact ⟨fun _ => rfl, fun _ _ => rfl, fun _ _ _ => rfl⟩
  · rw [if_neg h0]
    refine ⟨fun h => absurd h h0, fun e he => ?_, fun r hr hshort => ?_⟩
    · simp only [he]
    · simp only [hr]
      exact if_pos hshort

/-- Witness for C8 at a concrete input: a raising LLM stub and a non-empty
history; the original query comes back unchanged. -/
theorem reformulate_query_fallback_witness :
    QueryReformulator.reformulate_query (fun _ _ => Except.error "boom")
        "tell me more about it" [⟨"user", "hi"⟩, ⟨"assistant", "hello"⟩]
        none =
      "tell me more about it" := by
  exact (reformulate_query_fallback (fun _ _ => Except.error "boom")
      "tell me more about it" [⟨"user", "hi"⟩, ⟨"assistant", "hello"⟩]
      none).2.1 "boom" rfl

/-! ### C5 — chronological suffix from `get_recent_messages` -/

/-- Inserting an element smaller than everything in the list into a
descending list pushes it to the end. -/
theorem insertDesc_of_forall_lt (m : ChatMessageRow) (l : List ChatMessageRow)
    (h : ∀ x ∈ l, m.timestamp < x.timestamp) :
    insertDesc m l = l ++ [m] := by
  induction l with
  | nil => rfl
  | cons x xs ih =>
    unfold insertDesc
    rw [if_neg (by have := h x (List.mem_cons_self x xs); omega)]
    rw [ih (fun y hy => h y (List.mem_cons_of_mem x hy))]
    rfl

/-- Sorting a strictly ascending list by timestamp descending reverses it. -/
theorem sortByTimestampDesc_of_ascending (l : List ChatMessageRow)
    (h : l.Pairwise (fun a b => a.timestamp < b.timestamp)) :
    sortByTimestampDesc l = l.reverse := by
  induction l with
  | nil => rfl
  | cons a l ih =>
    have hstep : sortByTimestampDesc (a :: l) =
        insertDesc a (sortByTimestampDesc l) := rfl
    rw [hstep, ih (List.pairwise_cons.1 h).2]
    rw [insertDesc_of_forall_lt a l.reverse
      (fun x hx => (List.pairwise_cons.1 h).1 x (List.mem_reverse.1 hx))]
    rw [List.reverse_cons]

/-- C5: when the session's stored rows are strictly ascending in timestamp
(the chronological history), `get_recent_messages` returns a suffix of that
history of length `min limit total`, in non-decreasing timestamp order. -/
theorem get_recent_messages_chronological_suffix (db : Db) (sid : String)
    (limit : Nat) (hlim : 0 < limit)
    (hasc : (LongTermMemory.sessionRows db sid).Pairwise
      (fun a b => a.timestamp < b.timestamp)) :
    LongTermMemory.get_recent_messages db sid limit <:+
      LongTermMemory.sessionRows db sid ∧
    (LongTermMemory.get_recent_messages db sid limit).length =
      min limit (LongTermMemory.sessionRows db sid).length ∧
    (LongTermMemory.get_recent_messages db sid limit).Pairwise
      (fun a b => a.timestamp ≤ b.timestamp) := by
  have heq : LongTermMemory.get_recent_messages db sid limit =
      (((LongTermMemory.sessionRows db sid).reverse).take limit).reverse := by
    unfold LongTermMemory.get_recent_messages
    rw [sortByTimestampDesc_of_ascending _ hasc]
  have hsuf : (((LongTermMemory.sessionRows db sid).reverse).take limit).reverse <:+
      LongTermMemory.sessionRows db sid := by
    refine ⟨(((LongTermMemory.sessionRows db sid).reverse).drop limit).reverse, ?_⟩
    rw [← List.reverse_append, List.take_append_drop, List.reverse_reverse]
  refine ⟨by rw [heq]; exact hsuf, ?_, ?_⟩
  · rw [heq, List.length_reverse, List.length_take, List.length_reverse]
  · rw [heq]
    exact (hasc.sublist hsuf.sublist).imp (fun hab => Nat.le_of_lt hab)

/-- Concrete store for the C5 witness: three `"s1"` messages with ascending
timestamps interleaved with a message of another session. -/
def c5db : Db :=
  ⟨[], [⟨"s1", "user", "a", 1⟩, ⟨"s2", "user", "x", 5⟩,
        ⟨"s1", "assistant", "b", 2⟩, ⟨"s1", "user", "c", 3⟩]⟩

/-- Witness for C5 at a concrete input: `limit = 2` over three stored
messages yields the last two, a suffix of length `min 2 3`, in
non-decreasing timestamp order. -/
theorem get_recent_messages_chronological_witness :
    LongTermMemory.get_recent_messages c5db "s1" 2 <:+
      LongTermMemory.sessionRows c5db "s1" ∧
    (LongTermMemory.get_recent_messages c5db "s1" 2).length =
      min 2 (LongTermMemory.sessionRows c5db "s1").length ∧
    (LongTermMemory.get_recent_messages c5db "s1" 2).Pairwise
      (fun a b => a.timestamp ≤ b.timestamp) := by
  exact get_recent_messages_chronological_suffix c5db "s1" 2 (by decide)
    (by decide)

/-! ### C4 — counter/row-count lockstep -/

/-- One `LongTermMemory.add_message` transition moves the session's
persisted row count and its `total_messages` counter in lockstep: both grow
by exactly one in the single committed state change (there is no state with
one updated and not the other). -/
theorem add_message_lockstep (db : Db) (md : ChatMessageCreate)
    (sid : String) (now : Nat) (hmd : md.session_id = sid) :
    LongTermMemory.get_message_count
        (LongTermMemory.add_message db md sid now).2 sid =
      LongTermMemory.get_message_count db sid + 1 ∧
    ∀ s₁, LongTermMemory.get_session db sid = some s₁ →
      LongTermMemory.get_session (LongTermMemory.add_message db md sid now).2 sid =
        some { s₁ with total_messages := s₁.total_messages + 1,
                       last_activity := now } := by
  constructor
  · simp [LongTermMemory.get_message_count, LongTermMemory.sessionRows,
      LongTermMemory.add_message, List.filter_append, hmd]
  · intro s₁ h₁
    unfold LongTermMemory.get_session at h₁ ⊢
    unfold LongTermMemory.add_message
    rw [List.find?_map]
    have hcomp : ((fun s => s.session_id == sid) ∘
        (fun s => if s.session_id == sid then
          { s with total_messages := s.total_messages + 1,
                   last_activity := now }
        else s)) = (fun s : ChatSession => s.session_id == sid) := by
      funext s
      by_cases hs : s.session_id = sid <;> simp [hs]
    rw [hcomp, h₁]
    have hps0 := List.find?_some h₁
    have hps : s₁.session_id = sid := by simpa using hps0
    simp [hps]

/-- A run of `LongTermMemory.add_message` calls for one session (the
`session` object passed in each call being that session's row). -/
def runAddMessages (db : Db) (sid : String)
    (calls : List (ChatMessageCreate × Nat)) : Db :=
  calls.foldl (fun d c => (LongTermMemory.add_message d c.1 sid c.2).2) db

/-- Folding `add_message` over a call list adds `calls.length` both to the
session's counter and to its persisted row count. -/
theorem runAddMessages_spec (sid : String)
    (calls : List (ChatMessageCreate × Nat))
    (hcalls : ∀ c ∈ calls, c.1.session_id = sid) :
    ∀ (db : Db) (s₀ : ChatSession),
      LongTermMemory.get_session db sid = some s₀ →
      (∃ s, LongTermMemory.get_session (runAddMessages db sid calls) sid =
          some s ∧
        s.total_messages = s₀.total_messages + calls.length) ∧
      LongTermMemory.get_message_count (runAddMessages db sid calls) sid =
        LongTermMemory.get_message_count db sid + calls.length := by
  induction calls with
  | nil =>
    intro db s₀ h₀
    exact ⟨⟨s₀, h₀, rfl⟩, rfl⟩
  | cons c cs ih =>
    intro db s₀ h₀
    have hc : c.1.session_id = sid := hcalls c (List.mem_cons_self c cs)
    obtain ⟨hcount, hsess⟩ := add_message_lockstep db c.1 sid c.2 hc
    have hrun : runAddMessages db sid (c :: cs) =
        runAddMessages (LongTermMemory.add_message db c.1 sid c.2).2 sid cs := rfl
    obtain ⟨⟨s, hs, hstot⟩, hcnt⟩ :=
      ih (fun d hd => hcalls d (List.mem_cons_of_mem c hd))
        (LongTermMemory.add_message db c.1 sid c.2).2
        { s₀ with total_messages := s₀.total_messages + 1,
                  last_activity := c.2 }
        (hsess s₀ h₀)
    refine ⟨⟨s, by rw [hrun]; exact hs, ?_⟩, ?_⟩
    · have hproj : ({ s₀ with total_messages := s₀.total_messages + 1, last_activity := c.2 } : ChatSession).total_messages = s₀.total_messages + 1 := rfl
      rw [hproj] at hstot
      simp only [List.length_cons]
      omega
    · rw [hrun, hcnt, hcount]
      simp only [List.length_cons]
      omega

/-- C4: starting from a freshly created session (counter zero, no persisted
rows), after `M` successful `add_message` calls for that session the
counter equals `M` and the persisted row count equals `M`; and each single
`add_message` transition updates row count and counter atomically — both
move by one in the same committed state change. -/
theorem counter_matches_row_count (db0 : Db) (sid : String)
    (calls : List (ChatMessageCreate × Nat)) (s0 : ChatSession)
    (hfresh : LongTermMemory.get_session db0 sid = some s0)
    (hzero : s0.total_messages = 0)
    (hnomsg : LongTermMemory.get_message_count db0 sid = 0)
    (hcalls : ∀ c ∈ calls, c.1.session_id = sid) :
    (∃ s, LongTermMemory.get_session (runAddMessages db0 sid calls) sid =
        some s ∧
      s.total_messages = calls.length) ∧
    LongTermMemory.get_message_count (runAddMessages db0 sid calls) sid =
      calls.length ∧
    (∀ (db : Db) (md : ChatMessageCreate) (now : Nat),
      md.session_id = sid →
      LongTermMemory.get_message_count
          (LongTermMemory.add_message db md sid now).2 sid =
        LongTermMemory.get_message_count db sid + 1 ∧
      ∀ s₁, LongTermMemory.get_session db sid = some s₁ →
        LongTermMemory.get_session
            (LongTermMemory.add_message db md sid now).2 sid =
          some { s₁ with total_messages := s₁.total_messages + 1,
                         last_activity := now }) := by
  obtain ⟨⟨s, hs, hstot⟩, hcnt⟩ := runAddMessages_spec sid calls hcalls db0 s0 hfresh
  refine ⟨⟨s, hs, by omega⟩, by omega, ?_⟩
  intro db md now hmd
  exact add_message_lockstep db md sid now hmd

/-- Concrete store for the C4 witness: one freshly created `"s1"` session
and no messages. -/
def c4db : Db :=
  ⟨[⟨"s1", [1, 2], none, 0, none, 0⟩], []⟩

/-- Witness for C4 at a concrete input: two `add_message` calls leave
`total_messages = 2` and two persisted rows. -/
theorem counter_matches_row_count_witness :
    (∃ s, LongTermMemory.get_session
        (runAddMessages c4db "s1" [(⟨"s1", "user", "hi"⟩, 1),
          (⟨"s1", "assistant", "hello"⟩, 2)]) "s1" = some s ∧
      s.total_messages = 2) ∧
    LongTermMemory.get_message_count
        (runAddMessages c4db "s1" [(⟨"s1", "user", "hi"⟩, 1),
          (⟨"s1", "assistant", "hello"⟩, 2)]) "s1" = 2 := by
  obtain ⟨h1, h2, _⟩ := counter_matches_row_count c4db "s1"
    [(⟨"s1", "user", "hi"⟩, 1), (⟨"s1", "assistant", "hello"⟩, 2)]
    ⟨"s1", [1, 2], none, 0, none, 0⟩ (by decide) (by decide) (by decide)
    (by decide)
  exact ⟨h1, h2⟩

/-- Decidable equality for `Except`, so that concrete runs of the fallible
operations can be checked by `decide`. -/
instance exceptDecEq {e a : Type} [DecidableEq e] [DecidableEq a] :
    DecidableEq (Except e a) := fun x y =>
  match x, y with
  | Except.ok v, Except.ok w =>
    if h : v = w then Decidable.isTrue (by rw [h])
    else Decidable.isFalse (fun hh => h (Except.ok.inj hh))
  | Except.error v, Except.error w =>
    if h : v = w then Decidable.isTrue (by rw [h])
    else Decidable.isFalse (fun hh => h (Except.error.inj hh))
  | Except.ok _, Except.error _ =>
    Decidable.isFalse (fun hh => Except.noConfusion hh)
  | Except.error _, Except.ok _ =>
    Decidable.isFalse (fun hh => Except.noConfusion hh)

/-! ### C2 — batch loading skips truncation entirely -/

/-- Counterexample to C2 as stated: with `messages_to_keep = 1`,
`load_messages_batch` of three messages into an empty buffer succeeds and
leaves 3 entries — above the supposed `2 × keep_size = 2` cap — because the
method performs no truncation check at all, not even one amortized check
for the whole batch. -/
theorem load_messages_batch_exceeds_cap_cex :
    ShortTermMemory.load_messages_batch (freshSTM 2000 1)
        [("user", "a"), ("assistant", "b"), ("user", "c")] =
      Except.ok ⟨2000, 1, [⟨Role.user, "a"⟩, ⟨Role.assistant, "b"⟩,
        ⟨Role.user, "c"⟩]⟩ ∧
    ¬((ShortTermMemory.mk 2000 1 [⟨Role.user, "a"⟩, ⟨Role.assistant, "b"⟩,
        ⟨Role.user, "c"⟩])._messages.length ≤
      2 * (ShortTermMemory.mk 2000 1 [⟨Role.user, "a"⟩, ⟨Role.assistant, "b"⟩,
        ⟨Role.user, "c"⟩]).messages_to_keep) := by
  decide

/-- C2 as amended: the `≤ 2 × keep_size` bound is an invariant of every
successful `add_message` call (for `keep_size ≥ 1`), but
`load_messages_batch` bulk-appends with no truncation check at all —
neither per item nor once for the batch — so a successful batch load always
grows the buffer by exactly the batch size and can leave it above
`2 × keep_size`. -/
theorem buffer_cap_held_by_add_but_not_batch :
    (∀ (stm : ShortTermMemory) (role content : String)
        (stm' : ShortTermMemory),
      1 ≤ stm.messages_to_keep →
      stm.add_message role content = Except.ok stm' →
      stm'._messages.length ≤ 2 * stm.messages_to_keep) ∧
    (∀ (stm : ShortTermMemory) (batch : List (String × String))
        (stm' : ShortTermMemory),
      stm.load_messages_batch batch = Except.ok stm' →
      stm'._messages.length = stm._messages.length + batch.length ∧
      stm'.messages_to_keep = stm.messages_to_keep) := by
  constructor
  · intro stm role content stm' hk h
    unfold ShortTermMemory.add_message at h
    cases hr : roleOfString role with
    | none => rw [hr] at h; simp at h
    | some r =>
      rw [hr] at h
      injection h with h'
      subst h'
      by_cases hc : stm.messages_to_keep * 2 <
          (stm._messages ++ [(⟨r, content⟩ : Msg)]).length
      · simp only [if_pos hc]
        unfold pySliceLast
        rw [if_neg (by omega), List.length_drop]
        omega
      · simp only [if_neg hc]
        omega
  · intro stm batch
    induction batch generalizing stm with
    | nil =>
      intro stm' h
      have hid : stm.load_messages_batch [] = Except.ok stm := rfl
      rw [hid] at h
      injection h with h'
      subst h'
      exact ⟨rfl, rfl⟩
    | cons m rest ih =>
      intro stm' h
      unfold ShortTermMemory.load_messages_batch at h
      rw [List.foldlM_cons] at h
      cases hr : roleOfString m.1 with
      | none =>
        rw [hr] at h
        simp [Bind.bind, Except.bind] at h
      | some r =>
        rw [hr] at h
        have hrest : ShortTermMemory.load_messages_batch
            { stm with _messages := stm._messages ++ [⟨r, m.2⟩] } rest =
            Except.ok stm' := h
        obtain ⟨hlen, hkeep⟩ := ih _ _ hrest
        refine ⟨?_, hkeep⟩
        rw [hlen]
        have hrec : ({ stm with
            _messages := stm._messages ++ [(⟨r, m.2⟩ : Msg)] } :
            ShortTermMemory)._messages = stm._messages ++ [(⟨r, m.2⟩ : Msg)] := rfl
        rw [hrec]
        simp only [List.length_append, List.length_cons, List.length_singleton,
          List.length_nil]
        omega

/-- Witness for the amended C2 at a concrete input: a truncation-triggering
`add_message` call on a full buffer lands back at the cap, while the batch
load of the counterexample simply appends. -/
theorem buffer_cap_held_by_add_but_not_batch_witness :
    (ShortTermMemory.mk 9 1 [⟨Role.user, "a"⟩, ⟨Role.assistant, "b"⟩])._messages.length ≤ 2 * 1 →
    (⟨9, 1, [⟨Role.user, "c"⟩]⟩ : ShortTermMemory)._messages.length ≤ 2 * 1 := by
  intro _
  exact (buffer_cap_held_by_add_but_not_batch).1
    (ShortTermMemory.mk 9 1 [⟨Role.user, "a"⟩, ⟨Role.assistant, "b"⟩])
    "user" "c" ⟨9, 1, [⟨Role.user, "c"⟩]⟩ (by decide) (by decide)

/-! ### C1 — the memory-manager cache never hits -/

/-- The failing input for C1: a fresh service, first call with session
`"s1"` and document ids `[1, 2]`. -/
def c1FirstCall : Nat × ChatAssistantService :=
  get_or_create_memory_manager ⟨[], 50, 0⟩ "s1" [1, 2]

/-- The second, identical call on the state left by the first. -/
def c1SecondCall : Nat × ChatAssistantService :=
  get_or_create_memory_manager c1FirstCall.2 "s1" [1, 2]

/-- C1 is violated by the code: `_get_or_create_memory_manager` looks
managers up under `f"{session_id}:{sorted_pdf_ids}"` but stores them under
`session_id` alone (`service.py` line 75), so the second call with the same
session id and document-id set misses the cache and constructs a second,
distinct manager instead of returning the cached one: the entry sits under
key `"s1"` while the lookup key `"s1:(1, 2)"` is absent. -/
theorem service_cache_never_hits_on_repeat_call :
    c1FirstCall.1 = 0 ∧
    c1SecondCall.1 = 1 ∧
    c1SecondCall.1 ≠ c1FirstCall.1 ∧
    odictLookup c1FirstCall.2._memory_manager_cache
      ("s1:" ++ pyTupleRepr (pySorted [1, 2])) = none ∧
    odictLookup c1FirstCall.2._memory_manager_cache "s1" = some 0 := by
  decide

end EnestMemory
